import Mathlib

/-!
Verification of the statistical comparison engine of the tracerbench
repository against its natural-language specification.

The embedding below translates the TypeScript sources:
  * `GenerateStats` and its helpers (`bucketPhaseValues`, `generateData`,
    `formatPhaseData`, `bucketCumulative`, `cumulativeValueFunc`) from the
    two concatenated versions of `create-stats.ts` found in
    src/unnamed/part_000 (version A: lines 228-556, version B: lines
    557-869).  Where the two versions differ the difference is noted at the
    corresponding definition.
  * the legacy bucketing helper of
    src/packages/cli/src/helpers/create-consumable-html.ts.

JavaScript numbers are modelled as exact rationals (`ℚ`); `Math.round` is
floor(x + 1/2), which is exactly the JS semantics for rationals.  JS object
maps with string keys are modelled as insertion-ordered association lists
(`alistSet` keeps the position of an existing key and appends a fresh key,
matching JS property order for non-index keys; no phase name used in this
development is an array-index-like string).  A JS `undefined` property
access that would throw a `TypeError` is modelled with `Option`: `none`
means the computation crashed.

The `@tracerbench/stats` package (class `Stats`, the confidence interval,
the Hodges-Lehmann estimator, quantiles, outliers, histogram buckets) and
the `md5sum` helper are imported by the source but are not part of the
source tree; every definition standing in for them is marked
"Modelled from the spec:" and follows the specification text (sections
4.2-4.6, 4.8) rather than any source code.
-/

/-- Floor of a rational number. -/
def ratFloor (q : ℚ) : ℤ := ⌊q⌋

/-- `Math.round` of JavaScript: round half towards positive infinity. -/
def jsRound (q : ℚ) : ℤ := ratFloor (q + 1/2)

/-- Ceiling of a rational number, expressed through the floor. -/
def ratCeil (q : ℚ) : ℤ := -ratFloor (-q)

/-- Newton iteration for the integer square root, written with an explicit
fuel argument (structural recursion, so proofs can evaluate it).  Starting
from `guess = n` it descends monotonically to `⌊√n⌋`. -/
def isqrtAux (n : ℕ) : ℕ → ℕ → ℕ
  | 0, guess => guess
  | fuel + 1, guess =>
    let next := (guess + n / guess) / 2
    if next < guess then isqrtAux n fuel next else guess

/-- Integer square root via `isqrtAux` (the fuel `n` dominates the
logarithmic number of Newton steps). -/
def isqrt (n : ℕ) : ℕ := isqrtAux n n n

/-- Deterministic rational approximation of the square root, used where the
source's statistics run on IEEE doubles: `sqrt q ≈ isqrt ⌊q·10¹²⌋ / 10⁶`.
Only a rounded rank is ever derived from it, so this precision suffices. -/
def ratSqrt (q : ℚ) : ℚ :=
  if q ≤ 0 then 0 else ((isqrt (ratFloor (q * 1000000000000)).toNat : ℚ)) / 1000000

/-- Insertion into an ascending-sorted list (stable: new element goes after
existing equal elements). -/
def insertAsc (x : ℚ) : List ℚ → List ℚ
  | [] => [x]
  | y :: l => if x < y then x :: y :: l else y :: insertAsc x l

/-- Numeric ascending sort (explicit numeric ordering, as the spec demands
for the pairwise-difference multiset). -/
def sortAsc (l : List ℚ) : List ℚ := l.foldl (fun acc x => insertAsc x acc) []

/-- First-occurrence deduplication, the iteration order of a JS `Set`. -/
def dedupFirstAux (seen : List String) : List String → List String
  | [] => []
  | a :: l => if a ∈ seen then dedupFirstAux seen l else a :: dedupFirstAux (a :: seen) l

/-- First-occurrence deduplication, the iteration order of a JS `Set`. -/
def dedupFirst (l : List String) : List String := dedupFirstAux [] l

/-- Lookup in an insertion-ordered association list (first match). -/
def alistGet {β : Type} (k : String) : List (String × β) → Option β
  | [] => none
  | (k', v) :: l => if k' = k then some v else alistGet k l

/-- Assignment in an insertion-ordered association list: an existing key
keeps its position, a fresh key is appended — JS object property order. -/
def alistSet {β : Type} (l : List (String × β)) (k : String) (v : β) : List (String × β) :=
  match l with
  | [] => [(k, v)]
  | (k', v') :: rest => if k' = k then (k, v) :: rest else (k', v') :: alistSet rest k v

/-- Sequential `Option`-valued map: `none` as soon as one element fails,
modelling a JS loop that throws on an `undefined` access. -/
def mapAll {α β : Type} (f : α → Option β) : List α → Option (List β)
  | [] => some []
  | x :: l =>
    match f x, mapAll f l with
    | some y, some r => some (y :: r)
    | _, _ => none

/-- `PhaseMeasurement` of the data model: one entry of `Sample.phases`
(src/unnamed/part_000, `Sample` type, lines 571-581). -/
structure PhaseMeasurement where
  phase : String
  start : ℚ
  duration : ℚ
  sign : ℤ
  unit : String
deriving Repr, DecidableEq

/-- `Sample`: one full benchmark run (src/unnamed/part_000, lines 571-581). -/
structure Sample where
  duration : ℚ
  js : ℚ
  phases : List PhaseMeasurement
deriving Repr, DecidableEq

/-- A value bucket of `ValuesByPhase`: `{ values, sign, unit }`
(src/unnamed/part_000, lines 629-631). -/
structure PhaseBucket where
  values : List ℚ
  sign : ℤ
  unit : String
deriving Repr, DecidableEq

/-- The default `valueGen` of `bucketPhaseValues`: `(a) => a.duration`
(src/unnamed/part_000, line 731). -/
def defaultValueGen : PhaseMeasurement → ℚ := fun a => a.duration

/-- Inner loop body of `bucketPhaseValues` (src/unnamed/part_000, lines
740-748): fetch or create the bucket of `pd.phase`, push `valueGen pd`,
store the bucket back.  A pre-existing bucket keeps its recorded `sign` and
`unit`; only its `values` grow. -/
def processPhase (vg : PhaseMeasurement → ℚ) (buckets : List (String × PhaseBucket))
    (pd : PhaseMeasurement) : List (String × PhaseBucket) :=
  let bucket := (alistGet pd.phase buckets).getD ⟨[], pd.sign, pd.unit⟩
  alistSet buckets pd.phase ⟨bucket.values ++ [vg pd], bucket.sign, bucket.unit⟩

/-- Outer loop body of `bucketPhaseValues` (src/unnamed/part_000, lines
737-749): push the sample's top-level `duration` into the `"duration"`
bucket (which is created before the loop and never removed, so the `getD`
default is never taken), then fold over the sample's phases. -/
def processSample (vg : PhaseMeasurement → ℚ) (buckets : List (String × PhaseBucket))
    (s : Sample) : List (String × PhaseBucket) :=
  let durBucket := (alistGet "duration" buckets).getD ⟨[], 1, "ms"⟩
  let buckets' := alistSet buckets "duration"
    ⟨durBucket.values ++ [s.duration], durBucket.sign, durBucket.unit⟩
  s.phases.foldl (processPhase vg) buckets'

/-- `GenerateStats.bucketPhaseValues` (src/unnamed/part_000, lines 729-752,
identical to lines 401-424 of the other version). -/
def bucketPhaseValues (samples : List Sample) (vg : PhaseMeasurement → ℚ) :
    List (String × PhaseBucket) :=
  samples.foldl (processSample vg) [("duration", ⟨[], 1, "ms"⟩)]

/-- All measurements carrying a given phase name, in sample order — the
order in which `bucketPhaseValues` visits them. -/
def phaseOccurrences (samples : List Sample) (p : String) : List PhaseMeasurement :=
  match samples with
  | [] => []
  | s :: rest => s.phases.filter (fun m => decide (m.phase = p)) ++ phaseOccurrences rest p

/-- Modelled from the spec: `convertMicrosecondsToMS` of the external
`@tracerbench/stats` package (not under src/) — "the microsecond sum
converted to milliseconds" (§4.7): division by 1000. -/
def convertMicrosecondsToMS (x : ℚ) : ℚ := x / 1000

/-- Modelled from the spec: `roundFloatAndConvertMicrosecondsToMS` of the
external `@tracerbench/stats` package (not under src/) — "all stats will be
converted to milliseconds and rounded to tenths" (source comment at
src/unnamed/part_000 line 769): microseconds to milliseconds rounded to one
decimal, i.e. `round(x/100)/10`. -/
def roundFloatAndConvertMicrosecondsToMS (x : ℚ) : ℚ := ((jsRound (x / 100) : ℚ)) / 10

/-- Modelled from the spec: the quantile engine (§4.2).  Linear
interpolation at `idx = p/100 · (n-1)` over an ascending-sorted list;
`none` for the empty sequence ("all fields undefined/NaN"). -/
def quantileAt (sorted : List ℚ) (p : ℚ) : Option ℚ :=
  match sorted with
  | [] => none
  | _ =>
    let n := sorted.length
    let idx : ℚ := p / 100 * ((n : ℚ) - 1)
    let lo : ℤ := ratFloor idx
    let hi : ℤ := ratCeil idx
    match sorted.get? lo.toNat, sorted.get? hi.toNat with
    | some vlo, some vhi => some (vlo + (idx - (lo : ℚ)) * (vhi - vlo))
    | _, _ => none

/-- Modelled from the spec: the five-number summary of the quantile engine
(§4.2), the part of `Stats.sevenFigureSummary` that the source reads
(`min`, `[25]`, `[50]`, `[75]`, `max`). -/
structure SevenFigureSummary where
  min : Option ℚ
  q25 : Option ℚ
  q50 : Option ℚ
  q75 : Option ℚ
  max : Option ℚ
deriving Repr, DecidableEq

/-- Modelled from the spec: the quantile engine's summary of one group
(§4.2). -/
def sevenFigureOf (l : List ℚ) : SevenFigureSummary :=
  let s := sortAsc l
  { min := s.head?
    q25 := quantileAt s 25
    q50 := quantileAt s 50
    q75 := quantileAt s 75
    max := s.getLast? }

/-- Modelled from the spec: the outlier detector (§4.3).  Tukey fences
`q1 - 1.5·iqr`, `q3 + 1.5·iqr`; outliers strictly outside, in original
order. -/
def outliersOf (l : List ℚ) : List ℚ :=
  match quantileAt (sortAsc l) 25, quantileAt (sortAsc l) 75 with
  | some q1, some q3 =>
    let iqr := q3 - q1
    l.filter (fun x => decide (x < q1 - 3/2 * iqr ∨ q3 + 3/2 * iqr < x))
  | _, _ => []

/-- The multiset of pairwise differences `{e - c}` between the two groups
(§4.4). -/
def pairwiseDiffs (c e : List ℚ) : List ℚ :=
  match c with
  | [] => []
  | x :: xs => e.map (fun y => y - x) ++ pairwiseDiffs xs e

/-- Modelled from the spec: the Hodges-Lehmann location-shift estimator
(§4.4): median of the sorted pairwise-difference multiset; 0 when a group
is empty (the estimator is only specified for n,m ≥ 1). -/
def hlEstimator (c e : List ℚ) : ℚ :=
  (quantileAt (sortAsc (pairwiseDiffs c e)) 50).getD 0

/-- Modelled from the spec: pinned standard-normal quantile
`z(1 - α/2) = z(0.975) = 1.96` for the default confidence level (§4.4). -/
def z975 : ℚ := 196 / 100

/-- Modelled from the spec: the Mann-Whitney U statistic of the experiment
group — count of pairs with `e > c`, ties counted 1/2 (§4.4 step 3). -/
def uStatistic (c e : List ℚ) : ℚ :=
  (pairwiseDiffs c e).foldl
    (fun acc d => acc + (if 0 < d then 1 else if d = 0 then 1/2 else 0)) 0

/-- Modelled from the spec: a crude computable stand-in for the
standard-normal CDF used by the p-value of §4.4 step 3.  No claim in this
development depends on the p-value's numeric value. -/
def normalCdfApprox (x : ℚ) : ℚ := max 0 (min 1 (1/2 + x * 2/5))

/-- Modelled from the spec: two-sided p-value from the normal approximation
to the Mann-Whitney U distribution with continuity correction (§4.4 step
3).  No claim in this development depends on its value. -/
def pValueOf (c e : List ℚ) : ℚ :=
  let n := c.length
  let m := e.length
  if n = 0 ∨ m = 0 then 1
  else
    let sd := ratSqrt ((n * m * (n + m + 1) : ℚ) / 12)
    if sd = 0 then 1
    else
      let z := (|uStatistic c e - (n * m : ℚ) / 2| - 1/2) / sd
      max 0 (min 1 (2 * (1 - normalCdfApprox z)))

/-- The `asPercent` presentation of the confidence interval
(`IConfidenceInterval["asPercent"]` of the external stats package). -/
structure AsPercentData where
  percentMin : ℚ
  percentMedian : ℚ
  percentMax : ℚ
deriving Repr, DecidableEq

/-- Modelled from the spec: the shift expressed relative to the control
median, for presentation only; no claim depends on it. -/
def asPercentOf (c e : List ℚ) : AsPercentData :=
  let med := (quantileAt (sortAsc c) 50).getD 0
  let pct := fun (x : ℚ) => if med = 0 then 0 else x / med * 100
  { percentMin := pct (hlEstimator c e)
    percentMedian := pct (hlEstimator c e)
    percentMax := pct (hlEstimator c e) }

/-- The confidence-interval record of the external stats package as read by
the source: `min`, `max`, `isSig`, `pValue`, `asPercent`. -/
structure ConfidenceIntervalData where
  min : ℚ
  max : ℚ
  isSig : Bool
  pValue : ℚ
  asPercent : AsPercentData
deriving Repr, DecidableEq

/-- Modelled from the spec: the rank-based confidence interval of the shift
estimator (§4.4) together with its significance flag (§4.5).
`Cα = z(0.975)·sqrt(n·m·(n+m+1)/12)`; lower rank `round(N/2 - Cα/2)`,
upper rank `round(N/2 + Cα/2) + 1`, both clamped to `[1, N]`, indexing the
ascending-sorted pairwise differences (1-indexed).  `isSig` is the flag the
orchestrator ANDs with its own minimum-effect test: per §4.5 it requires
the interval to exclude 0, and per the §4.4 edge case / §7
`InsufficientSamples` a group with fewer than 2 values forces
non-significance because the normal approximation is unreliable there.
The interval bounds of an empty difference multiset are pinned to 0
(§4.2: "callers must check sample count before trusting it"). -/
def confidenceIntervalData (c e : List ℚ) : ConfidenceIntervalData :=
  let n := c.length
  let m := e.length
  let diffs := sortAsc (pairwiseDiffs c e)
  let N := n * m
  let ca := z975 * ratSqrt ((n * m * (n + m + 1) : ℚ) / 12)
  let lowerRank := min N (max 1 (jsRound ((N : ℚ) / 2 - ca / 2)).toNat)
  let upperRank := min N (max 1 (jsRound ((N : ℚ) / 2 + ca / 2) + 1).toNat)
  let lo := (diffs.get? (lowerRank - 1)).getD 0
  let hi := (diffs.get? (upperRank - 1)).getD 0
  { min := lo
    max := hi
    isSig := (decide (0 < lo) || decide (hi < 0)) && decide (2 ≤ n) && decide (2 ≤ m)
    pValue := pValueOf c e
    asPercent := asPercentOf c e }

/-- One histogram bin of `Stats.buckets` as read by the source:
`{min, max, count: {control, experiment}}`. -/
structure HistBucket where
  min : ℚ
  max : ℚ
  countControl : ℕ
  countExperiment : ℕ
deriving Repr, DecidableEq

/-- Modelled from the spec: the histogram binner (§4.6).  Shared edges over
`[min(combined), max(combined)]`, 10 bins (the default), single bin for a
degenerate range, closed-open bins except the last which is closed. -/
def histBuckets (c e : List ℚ) : List HistBucket :=
  match c ++ e with
  | [] => []
  | x :: xs =>
    let lo := xs.foldl min x
    let hi := xs.foldl max x
    if lo = hi then
      [⟨lo, hi, c.length, e.length⟩]
    else
      (List.range 10).map (fun i =>
        let a := lo + (hi - lo) * (i : ℚ) / 10
        let b := lo + (hi - lo) * ((i : ℚ) + 1) / 10
        let inBin := fun v =>
          if i = 9 then decide (a ≤ v ∧ v ≤ b) else decide (a ≤ v ∧ v < b)
        ⟨a, b, (c.filter inBin).length, (e.filter inBin).length⟩)

/-- Modelled from the spec: the identifier deriver (§4.8) standing in for
the `md5sum` helper (src/packages/... helpers/utils, not under src/): a
deterministic content hash of the phase name used purely as a stable key. -/
def md5sum (s : String) : String :=
  toString (s.foldl (fun h c => (h * 131 + c.toNat) % 18446744073709551616) 7)

/-- Modelled from the spec: the `Stats` class of the external
`@tracerbench/stats` package (not under src/), field by field from
§4.2-§4.6: both groups passed through the constructor's transform,
Hodges-Lehmann estimator, rank CI, per-group five-number summaries and
outliers, shared histogram bins, and the group sizes as sample counts.
`control`/`experiment` hold "the original value sequence for downstream
raw display" (§3). -/
structure Stats where
  control : List ℚ
  experiment : List ℚ
  name : String
  estimator : ℚ
  confidenceInterval : ConfidenceIntervalData
  sampleCountControl : ℕ
  sampleCountExperiment : ℕ
  sevenFigureControl : SevenFigureSummary
  sevenFigureExperiment : SevenFigureSummary
  outliersControl : List ℚ
  outliersExperiment : List ℚ
  buckets : List HistBucket
deriving Repr, DecidableEq

/-- Modelled from the spec: construction of the `Stats` class (external
`@tracerbench/stats`, not under src/) from the two raw value groups and the
per-value transform the source passes in. -/
def makeStats (controlRaw experimentRaw : List ℚ) (phaseName : String)
    (transform : ℚ → ℚ) : Stats :=
  let c := controlRaw.map transform
  let e := experimentRaw.map transform
  { control := c
    experiment := e
    name := phaseName
    estimator := hlEstimator c e
    confidenceInterval := confidenceIntervalData c e
    sampleCountControl := c.length
    sampleCountExperiment := e.length
    sevenFigureControl := sevenFigureOf c
    sevenFigureExperiment := sevenFigureOf e
    outliersControl := outliersOf c
    outliersExperiment := outliersOf e
    buckets := histBuckets c e }

/-- `FormattedStatsSamples` (src/unnamed/part_000, lines 593-601).  The
five quantile fields are `Option` because the quantile engine reports an
explicit empty summary for a group with no values. -/
structure FormattedStatsSamples where
  min : Option ℚ
  q1 : Option ℚ
  median : Option ℚ
  q3 : Option ℚ
  max : Option ℚ
  outliers : List ℚ
  samplesMS : List ℚ
deriving Repr, DecidableEq

/-- `Frequency` (src/unnamed/part_000, lines 603-607). -/
structure Frequency where
  labels : List String
  control : List ℕ
  experiment : List ℕ
deriving Repr, DecidableEq

/-- `HTMLSectionRenderData` (src/unnamed/part_000, lines 609-627): one
`ComparisonResult` of the spec's data model. -/
structure SectionData where
  stats : Stats
  isSignificant : Bool
  ciMin : ℚ
  ciMax : ℚ
  hlDiff : ℚ
  phase : String
  unit : String
  sign : ℤ
  identifierHash : String
  frequencyHash : String
  sampleCount : ℕ
  servers : Option (List String)
  controlFormatedSamples : FormattedStatsSamples
  experimentFormatedSamples : FormattedStatsSamples
  frequency : Frequency
  pValue : ℚ
  asPercent : AsPercentData
deriving Repr, DecidableEq

/-- The per-value transform `formatPhaseData` hands to the `Stats`
constructor (src/unnamed/part_000, line 776): microsecond-to-millisecond
rounding for `"ms"` phases, identity otherwise.  (The other version of the
file, line 450, uses `Math.round` instead of the identity; no claim's
verdict differs between the two.) -/
def transformFor (u : String) : ℚ → ℚ :=
  if u = "ms" then roundFloatAndConvertMicrosecondsToMS else fun a => a

/-- `GenerateStats.formatPhaseData` (src/unnamed/part_000, lines 762-826,
matching lines 434-500 of the other version up to `transformFor`).  The
source fills the three `frequency` arrays with one pass over
`stats.buckets`; the three parallel maps below build the same arrays. -/
def formatPhaseData (controlValues experimentValues : List ℚ) (phaseName : String)
    (u : String) (sgn : ℤ) : SectionData :=
  let stats := makeStats controlValues experimentValues phaseName (transformFor u)
  let estimatorIsSig := decide (1 ≤ |stats.estimator|)
  { stats := stats
    phase := phaseName
    identifierHash := md5sum phaseName
    frequencyHash := md5sum (phaseName ++ "-frequency")
    isSignificant := stats.confidenceInterval.isSig && estimatorIsSig
    unit := u
    sign := sgn
    sampleCount := stats.sampleCountControl
    ciMin := stats.confidenceInterval.min
    ciMax := stats.confidenceInterval.max
    pValue := stats.confidenceInterval.pValue
    hlDiff := stats.estimator
    servers := none
    asPercent := stats.confidenceInterval.asPercent
    frequency :=
      { labels := stats.buckets.map
          (fun b => toString b.min ++ "-" ++ toString b.max ++ " " ++ u)
        control := stats.buckets.map (fun b => b.countControl)
        experiment := stats.buckets.map (fun b => b.countExperiment) }
    controlFormatedSamples :=
      { min := stats.sevenFigureControl.min
        q1 := stats.sevenFigureControl.q25
        median := stats.sevenFigureControl.q50
        q3 := stats.sevenFigureControl.q75
        max := stats.sevenFigureControl.max
        outliers := stats.outliersControl
        samplesMS := stats.control }
    experimentFormatedSamples :=
      { min := stats.sevenFigureExperiment.min
        q1 := stats.sevenFigureExperiment.q25
        median := stats.sevenFigureExperiment.q50
        q3 := stats.sevenFigureExperiment.q75
        max := stats.sevenFigureExperiment.max
        outliers := stats.outliersExperiment
        samplesMS := stats.experiment } }

/-- `ParsedTitleConfigs` (src/unnamed/part_000, lines 565-569), reduced to
the server names the engine copies into each section. -/
structure ParsedTitleConfigs where
  servers : List String
  plotTitle : Option String
  browserVersion : String
deriving Repr, DecidableEq

/-- The sub-phase names of a sample group: the keys of its
`bucketPhaseValues` result minus `"duration"` (src/unnamed/part_000, lines
688-690), in JS object insertion order. -/
def subPhaseNames (samples : List Sample) (vg : PhaseMeasurement → ℚ) : List String :=
  ((bucketPhaseValues samples vg).map Prod.fst).filter (fun k => decide (k ≠ "duration"))

/-- The bucket a phase name maps to; the `getD` default mirrors a lookup
the source only performs for keys known to be present. -/
def bucketAt (samples : List Sample) (vg : PhaseMeasurement → ℚ) (p : String) : PhaseBucket :=
  (alistGet p (bucketPhaseValues samples vg)).getD ⟨[], 1, "ms"⟩

/-- The loop body of `generateData`'s sub-phase map (src/unnamed/part_000,
lines 699-712): read the phase's control bucket (always present — the
phase names are the control keys), read
`valuesByPhaseExperiment[phase].values` — `none` models the `TypeError` a
missing experiment bucket throws — and format the section with the control
bucket's unit and sign, stamping the report's server names on it. -/
def sectionFor (vbpC vbpE : List (String × PhaseBucket)) (rt : ParsedTitleConfigs)
    (phase : String) : Option SectionData :=
  let cv := (alistGet phase vbpC).getD ⟨[], 1, "ms"⟩
  (alistGet phase vbpE).map (fun ev =>
    let rd := formatPhaseData cv.values ev.values phase cv.unit cv.sign
    { rd with servers := some rt.servers })

/-- `GenerateStats.generateData` (src/unnamed/part_000, lines 676-720,
identical to lines 348-392 of the other version).  For each control
sub-phase the source reads `valuesByPhaseExperiment[phase].values`; when
the phase has no experiment bucket that is an `undefined.values` access,
a thrown `TypeError` — modelled by `none`.  Phases present only in the
experiment group are never iterated (the loop runs over the control keys)
and so are silently dropped. -/
def generateData (controlDataSamples experimentDataSamples : List Sample)
    (reportTitles : ParsedTitleConfigs) : Option (SectionData × List SectionData) :=
  let vbpC := bucketPhaseValues controlDataSamples defaultValueGen
  let vbpE := bucketPhaseValues experimentDataSamples defaultValueGen
  let subPhases := subPhaseNames controlDataSamples defaultValueGen
  let durC := ((alistGet "duration" vbpC).getD ⟨[], 1, "ms"⟩).values
  let durE := ((alistGet "duration" vbpE).getD ⟨[], 1, "ms"⟩).values
  let durationSection := formatPhaseData durC durE "duration" "ms" 1
  match mapAll (sectionFor vbpC vbpE reportTitles) subPhases with
  | none => none
  | some sections =>
    some ({ durationSection with servers := some reportTitles.servers }, sections)

/-- `SCORE_TO_MS_FACTOR = 10000 / 100` (src/unnamed/part_000, line 842):
"Maximum score 100/100 is as high as 10000ms." -/
def SCORE_TO_MS_FACTOR : ℚ := 10000 / 100

/-- `cumulativeValueFunc` of `bucketCumulative` (src/unnamed/part_000,
lines 837-845): `"ms"` phases are `Math.round(convertMicrosecondsToMS(start
+ duration))`; any other unit yields `duration * SCORE_TO_MS_FACTOR` — the
`start` offset is not part of the score branch. -/
def cumulativeValueFunc (a : PhaseMeasurement) : ℚ :=
  if a.unit = "ms" then ((jsRound (convertMicrosecondsToMS (a.start + a.duration)) : ℤ) : ℚ)
  else a.duration * SCORE_TO_MS_FACTOR

/-- `cumulativeValueFunc` of the other version of the file
(src/unnamed/part_000, lines 511-517): the non-`"ms"` branch is
`Math.round(start + duration)` with no scale factor. -/
def cumulativeValueFuncA (a : PhaseMeasurement) : ℚ :=
  if a.unit = "ms" then ((jsRound (convertMicrosecondsToMS (a.start + a.duration)) : ℤ) : ℚ)
  else ((jsRound (a.start + a.duration) : ℤ) : ℚ)

/-- `CumulativeChartData` (src/unnamed/part_000, lines 310-315). -/
structure CumulativeChartData where
  unit : String
  categories : List (List String)
  controlData : List (List ℚ)
  experimentData : List (List ℚ)
deriving Repr, DecidableEq

/-- `GenerateStats.bucketCumulative` of the version that groups by unit
(src/unnamed/part_000, lines 506-555).  The distinct units are collected
from the control buckets of the sub-phases into a JS `Set` (first-occurrence
order); per unit, the phases are filtered by their control bucket's unit and
`valuesByPhaseExperiment[k].values` is read for each — `undefined.values`
(a control-only phase) throws, modelled by `none`.  (The other version,
lines 855-867, returns one ungrouped record instead.) -/
def bucketCumulative (controlDataSamples experimentDataSamples : List Sample) :
    Option (List CumulativeChartData) :=
  let vbpE := bucketPhaseValues experimentDataSamples cumulativeValueFuncA
  let phases := subPhaseNames controlDataSamples cumulativeValueFuncA
  let units := dedupFirst
    (phases.map (fun p => (bucketAt controlDataSamples cumulativeValueFuncA p).unit))
  mapAll (fun u =>
    let filtered := phases.filter
      (fun p => decide ((bucketAt controlDataSamples cumulativeValueFuncA p).unit = u))
    (mapAll (fun k => (alistGet k vbpE).map (fun b => b.values)) filtered).map
      (fun eData =>
        { unit := u
          categories := filtered.map (fun k =>
            [k, if 0 < (bucketAt controlDataSamples cumulativeValueFuncA k).sign
                then "lower=better" else "higher=better"])
          controlData := filtered.map
            (fun k => (bucketAt controlDataSamples cumulativeValueFuncA k).values)
          experimentData := eData })) units

/-- `ITracerBenchTraceResult` (src/unnamed/part_000, lines 583-591). -/
structure TraceResult where
  browserVersion : String
  cpus : List String
  productVersion : String
  samples : List Sample
  set : String
deriving Repr, DecidableEq

/-- The three outputs the `GenerateStats` constructor stores. -/
structure GenerateStatsOutput where
  durationSection : SectionData
  subPhaseSections : List SectionData
  cumulativeCharts : List CumulativeChartData
deriving Repr, DecidableEq

/-- The `GenerateStats` constructor (src/unnamed/part_000, lines 653-674):
run `generateData` on the two sample sequences, then `bucketCumulative`; a
thrown `TypeError` in either aborts the whole comparison (`none`). -/
def generateStats (controlData experimentData : TraceResult)
    (reportTitles : ParsedTitleConfigs) : Option GenerateStatsOutput :=
  match generateData controlData.samples experimentData.samples reportTitles with
  | none => none
  | some (durationSection, subPhaseSections) =>
    match bucketCumulative controlData.samples experimentData.samples with
    | none => none
    | some cumulativeCharts => some ⟨durationSection, subPhaseSections, cumulativeCharts⟩

/-- A phase entry of the legacy cli `Sample`
(src/packages/cli/src/helpers/create-consumable-html.ts, lines 8-19). -/
structure CliPhase where
  phase : String
  start : ℚ
  duration : ℚ
deriving Repr, DecidableEq

/-- The legacy cli `Sample`
(src/packages/cli/src/helpers/create-consumable-html.ts, lines 8-19). -/
structure CliSample where
  duration : ℚ
  js : ℚ
  phases : List CliPhase
deriving Repr, DecidableEq

/-- The string JavaScript's default `Array.prototype.sort` compares: the
decimal rendering of the number.  Exact for integer values (JS prints
integers without a decimal point); non-integral rationals are rendered here
as `num/den`, a representation this development never relies on — every
value reaching the sort in a theorem below is integral. -/
def jsNumberString (q : ℚ) : String :=
  if q.den = 1 then toString q.num else toString q

/-- Lexicographic comparison of character lists by code point — the
comparison JS performs on strings (for the ASCII digit strings arising
from numbers it coincides with UTF-16 code-unit order). -/
def charListLt : List Char → List Char → Bool
  | [], [] => false
  | [], _ :: _ => true
  | _ :: _, [] => false
  | a :: as, b :: bs =>
    if a.toNat < b.toNat then true
    else if b.toNat < a.toNat then false
    else charListLt as bs

/-- The comparison used by JS `Array.prototype.sort` with no comparator:
lexicographic order of the decimal strings. -/
def jsLt (a b : ℚ) : Bool :=
  charListLt (jsNumberString a).toList (jsNumberString b).toList

/-- Stable insertion for the JS default sort (a new element goes after
existing equal elements, as ES2019 requires sorts to be stable). -/
def insertJs (x : ℚ) : List ℚ → List ℚ
  | [] => [x]
  | y :: l => if jsLt x y then x :: y :: l else y :: insertJs x l

/-- JS `Array.prototype.sort()` with no comparator: stable sort by the
lexicographic order of the elements' decimal strings. -/
def jsDefaultSort (l : List ℚ) : List ℚ := l.foldl (fun acc x => insertJs x acc) []

/-- `NORMALIZE` (src/packages/cli/src/helpers/create-consumable-html.ts,
line 43). -/
def NORMALIZE : ℚ := 1000

/-- The legacy `bucketPhaseValues`
(src/packages/cli/src/helpers/create-consumable-html.ts, lines 73-90):
push `duration / NORMALIZE` per sample into per-phase buckets, then sort
every bucket in place with the default (lexicographic) `Array.sort`. -/
def cliBucketPhaseValues (samples : List CliSample) : List (String × List ℚ) :=
  let buckets := samples.foldl (fun bs s =>
    let durVals := (alistGet "duration" bs).getD []
    let bs' := alistSet bs "duration" (durVals ++ [s.duration / NORMALIZE])
    s.phases.foldl (fun bs'' pd =>
      let vals := (alistGet pd.phase bs'').getD []
      alistSet bs'' pd.phase (vals ++ [pd.duration / NORMALIZE])) bs')
    [("duration", [])]
  buckets.map (fun kv => (kv.1, jsDefaultSort kv.2))

/-- `processSample` with the list of already-visited samples threaded
through the fold: the loop body of the source reads `sample.duration` and
the fields of each `phaseData` but contains no assignment into them, so the
translation returns every visited sample unchanged. -/
def processSampleTracked (vg : PhaseMeasurement → ℚ)
    (acc : List Sample × List (String × PhaseBucket)) (s : Sample) :
    List Sample × List (String × PhaseBucket) :=
  (acc.1 ++ [s], processSample vg acc.2 s)

/-- `bucketPhaseValues` instrumented to return the sample list the loop
leaves behind next to the buckets it builds. -/
def bucketPhaseValuesTracked (samples : List Sample) (vg : PhaseMeasurement → ℚ) :
    List Sample × List (String × PhaseBucket) :=
  samples.foldl (processSampleTracked vg) ([], [("duration", ⟨[], 1, "ms"⟩)])

/-- The full comparison with the input sample sequences threaded through
every pass that touches them: `generateData` buckets each group once with
the default value generator and `bucketCumulative` buckets each group once
more with the cumulative value generator; the first components are the
sample lists left after those passes. -/
def generateStatsTracked (controlData experimentData : TraceResult)
    (reportTitles : ParsedTitleConfigs) :
    (List Sample × List Sample) × Option GenerateStatsOutput :=
  let c1 := (bucketPhaseValuesTracked controlData.samples defaultValueGen).1
  let e1 := (bucketPhaseValuesTracked experimentData.samples defaultValueGen).1
  let c2 := (bucketPhaseValuesTracked c1 cumulativeValueFuncA).1
  let e2 := (bucketPhaseValuesTracked e1 cumulativeValueFuncA).1
  ((c2, e2), generateStats controlData experimentData reportTitles)

/-- Effect of one `bucketPhaseValues` iteration on the entry of one key:
push onto an existing bucket (keeping its metadata) or create a fresh
bucket from the measurement's metadata. -/
def stepBucket (vg : PhaseMeasurement → ℚ) (b : Option PhaseBucket)
    (m : PhaseMeasurement) : Option PhaseBucket :=
  match b with
  | some bk => some ⟨bk.values ++ [vg m], bk.sign, bk.unit⟩
  | none => some ⟨[vg m], m.sign, m.unit⟩

/-- The chart `bucketCumulative` builds for one unit, written directly from
the filtered phase list; equal to the source's construction whenever every
experiment lookup succeeds. -/
def chartForUnit (c e : List Sample) (u : String) : CumulativeChartData :=
  let phases := subPhaseNames c cumulativeValueFuncA
  let filtered := phases.filter
    (fun p => decide ((bucketAt c cumulativeValueFuncA p).unit = u))
  { unit := u
    categories := filtered.map (fun k =>
      [k, if 0 < (bucketAt c cumulativeValueFuncA k).sign
          then "lower=better" else "higher=better"])
    controlData := filtered.map (fun k => (bucketAt c cumulativeValueFuncA k).values)
    experimentData := filtered.map (fun k => (bucketAt e cumulativeValueFuncA k).values) }

/-- A report-title record used by the concrete inputs below. -/
def reportTitlesX : ParsedTitleConfigs := ⟨["Control", "Experiment"], none, "97"⟩

/-- A trace-result wrapper around a sample list, for concrete inputs. -/
def mkTrace (samples : List Sample) (tag : String) : TraceResult :=
  ⟨"97", [], "1.0", samples, tag⟩

/-- A control group in which phase `"A"` is reported once with unit `"ms"`
and once with unit `"/100"` — conflicting metadata. -/
def c1ControlSamples : List Sample :=
  [⟨100, 0, [⟨"A", 0, 5, 1, "ms"⟩]⟩, ⟨100, 0, [⟨"A", 0, 7, 1, "/100"⟩]⟩]

/-- An experiment group reporting phase `"A"` with unit `"ms"`. -/
def c1ExperimentSamples : List Sample := [⟨100, 0, [⟨"A", 0, 6, 1, "ms"⟩]⟩]

/-- A control group whose phase `"A"` is absent from the experiment group
below. -/
def c2ControlSamples : List Sample := [⟨100, 0, [⟨"A", 0, 5, 1, "ms"⟩]⟩]

/-- An experiment group with no phases at all. -/
def c2ExperimentSamples : List Sample := [⟨200, 0, []⟩]

/-- A sample with a score-unit phase whose `start` offset is non-zero. -/
def c5Sample : Sample := ⟨0, 0, [⟨"A", 3, 50, -1, "/100"⟩]⟩

/-- A control group whose only sub-phase carries unit `"ms"`. -/
def c6ControlSamples : List Sample := [⟨100, 0, [⟨"A", 0, 5, 1, "ms"⟩]⟩]

/-- An experiment group with an extra phase `"B"` carrying unit `"/100"`,
a unit occurring in no control bucket. -/
def c6ExperimentSamples : List Sample :=
  [⟨100, 0, [⟨"A", 0, 6, 1, "ms"⟩, ⟨"B", 0, 7, -1, "/100"⟩]⟩]

/-- Two samples whose phase `"A"` values arrive in the order 3, 4. -/
def c7Samples : List Sample :=
  [⟨10, 0, [⟨"A", 0, 3, 1, "ms"⟩]⟩, ⟨20, 0, [⟨"A", 0, 4, 1, "ms"⟩]⟩]

/-- Two cli samples whose normalized durations 2000 and 10000 arrive in
ascending numeric order — an order the lexicographic default sort breaks. -/
def c7CliSamples : List CliSample := [⟨2000000, 0, []⟩, ⟨10000000, 0, []⟩]

theorem alistGet_alistSet_self {β : Type} (l : List (String × β)) (k : String) (v : β) :
    alistGet k (alistSet l k v) = some v := by
  induction l with
  | nil => simp [alistSet, alistGet]
  | cons hd tl ih =>
    obtain ⟨k', v'⟩ := hd
    by_cases h : k' = k
    · simp [alistSet, h, alistGet]
    · simp [alistSet, h, alistGet, ih]

theorem alistGet_alistSet_ne {β : Type} (l : List (String × β)) (k k' : String) (v : β)
    (h : k' ≠ k) : alistGet k' (alistSet l k v) = alistGet k' l := by
  induction l with
  | nil => simp [alistSet, alistGet, Ne.symm h]
  | cons hd tl ih =>
    obtain ⟨k₀, v₀⟩ := hd
    by_cases h₀ : k₀ = k
    · subst h₀
      simp [alistSet, alistGet, Ne.symm h]
    · simp [alistSet, h₀, alistGet, ih]

theorem alistGet_processPhase (vg : PhaseMeasurement → ℚ)
    (bs : List (String × PhaseBucket)) (m : PhaseMeasurement) (p : String) :
    alistGet p (processPhase vg bs m) =
      if m.phase = p then stepBucket vg (alistGet p bs) m else alistGet p bs := by
  unfold processPhase
  by_cases h : m.phase = p
  · subst h
    cases hb : alistGet m.phase bs with
    | none => simp [hb, alistGet_alistSet_self, stepBucket]
    | some bk => simp [hb, alistGet_alistSet_self, stepBucket]
  · simp [h, alistGet_alistSet_ne _ _ _ _ (Ne.symm h)]

theorem alistGet_foldl_processPhase (vg : PhaseMeasurement → ℚ) (p : String) :
    ∀ (ms : List PhaseMeasurement) (bs : List (String × PhaseBucket)),
      alistGet p (ms.foldl (processPhase vg) bs) =
        (ms.filter (fun m => decide (m.phase = p))).foldl (stepBucket vg) (alistGet p bs)
  | [], _ => rfl
  | m :: ms, bs => by
    rw [List.foldl_cons, alistGet_foldl_processPhase vg p ms]
    by_cases h : m.phase = p
    · simp [List.filter_cons, h, alistGet_processPhase]
    · simp [List.filter_cons, h, alistGet_processPhase]

theorem alistGet_processSample (vg : PhaseMeasurement → ℚ)
    (bs : List (String × PhaseBucket)) (s : Sample) (p : String) (hp : p ≠ "duration") :
    alistGet p (processSample vg bs s) =
      (s.phases.filter (fun m => decide (m.phase = p))).foldl (stepBucket vg)
        (alistGet p bs) := by
  unfold processSample
  rw [alistGet_foldl_processPhase, alistGet_alistSet_ne _ _ _ _ hp]

theorem alistGet_foldl_processSample (vg : PhaseMeasurement → ℚ) (p : String)
    (hp : p ≠ "duration") :
    ∀ (samples : List Sample) (bs : List (String × PhaseBucket)),
      alistGet p (samples.foldl (processSample vg) bs) =
        (phaseOccurrences samples p).foldl (stepBucket vg) (alistGet p bs)
  | [], _ => rfl
  | s :: rest, bs => by
    rw [List.foldl_cons, alistGet_foldl_processSample vg p hp rest,
      alistGet_processSample vg bs s p hp]
    show _ = (phaseOccurrences (s :: rest) p).foldl (stepBucket vg) (alistGet p bs)
    rw [show phaseOccurrences (s :: rest) p =
          s.phases.filter (fun m => decide (m.phase = p)) ++ phaseOccurrences rest p
        from rfl,
      List.foldl_append]

theorem foldl_stepBucket_some (vg : PhaseMeasurement → ℚ) :
    ∀ (ms : List PhaseMeasurement) (bk : PhaseBucket),
      ms.foldl (stepBucket vg) (some bk) =
        some ⟨bk.values ++ ms.map vg, bk.sign, bk.unit⟩
  | [], bk => by simp
  | m :: ms, bk => by
    rw [List.foldl_cons,
      show stepBucket vg (some bk) m = some ⟨bk.values ++ [vg m], bk.sign, bk.unit⟩ from rfl,
      foldl_stepBucket_some vg ms]
    simp

/-- The bucket of any non-`"duration"` phase name: all its measurements'
values in sample order; `sign` and `unit` of the first occurrence. -/
theorem bucketPhaseValues_spec (vg : PhaseMeasurement → ℚ) (samples : List Sample)
    (p : String) (m : PhaseMeasurement) (ms : List PhaseMeasurement)
    (hp : p ≠ "duration") (hocc : phaseOccurrences samples p = m :: ms) :
    alistGet p (bucketPhaseValues samples vg) =
      some ⟨(m :: ms).map vg, m.sign, m.unit⟩ := by
  unfold bucketPhaseValues
  rw [alistGet_foldl_processSample vg p hp, hocc]
  have h0 : alistGet p [("duration", (⟨[], 1, "ms"⟩ : PhaseBucket))] = none := by
    simp [alistGet, Ne.symm hp]
  rw [h0, List.foldl_cons,
    show stepBucket vg none m = some ⟨[vg m], m.sign, m.unit⟩ from rfl,
    foldl_stepBucket_some]
  simp

theorem alistGet_duration_foldl (vg : PhaseMeasurement → ℚ) :
    ∀ (samples : List Sample) (bs : List (String × PhaseBucket)) (bk : PhaseBucket),
      alistGet "duration" bs = some bk →
      (∀ s ∈ samples, ∀ m ∈ s.phases, m.phase ≠ "duration") →
      alistGet "duration" (samples.foldl (processSample vg) bs) =
        some ⟨bk.values ++ samples.map Sample.duration, bk.sign, bk.unit⟩
  | [], bs, bk, hbs, _ => by simpa using hbs
  | s :: rest, bs, bk, hbs, hnd => by
    rw [List.foldl_cons]
    have hfil : s.phases.filter (fun m => decide (m.phase = "duration")) = [] := by
      rw [List.filter_eq_nil_iff]
      intro m hm
      simpa using hnd s (by simp) m hm
    have h1 : alistGet "duration" (processSample vg bs s) =
        some ⟨bk.values ++ [s.duration], bk.sign, bk.unit⟩ := by
      unfold processSample
      rw [alistGet_foldl_processPhase, hfil, hbs]
      simp [alistGet_alistSet_self]
    rw [alistGet_duration_foldl vg rest _ _ h1
      (fun s' hs' => hnd s' (by simp [hs']))]
    simp

/-- The `"duration"` bucket: every sample's top-level duration in sample
order, with the pinned metadata `sign = 1`, `unit = "ms"` (provided no
measurement is itself named `"duration"`). -/
theorem bucketPhaseValues_duration (vg : PhaseMeasurement → ℚ) (samples : List Sample)
    (hnd : ∀ s ∈ samples, ∀ m ∈ s.phases, m.phase ≠ "duration") :
    alistGet "duration" (bucketPhaseValues samples vg) =
      some ⟨samples.map Sample.duration, 1, "ms"⟩ := by
  unfold bucketPhaseValues
  rw [alistGet_duration_foldl vg samples _ ⟨[], 1, "ms"⟩ (by simp [alistGet]) hnd]
  simp

theorem mapAll_eq_none {α β : Type} (f : α → Option β) :
    ∀ (l : List α), (∃ x ∈ l, f x = none) → mapAll f l = none
  | [], hex => by simp at hex
  | x :: l, hex => by
    unfold mapAll
    obtain ⟨y, hy, hfy⟩ := hex
    rcases List.mem_cons.mp hy with h | h
    · subst h
      rw [hfy]
    · rw [mapAll_eq_none f l ⟨y, h, hfy⟩]
      cases f x <;> rfl

theorem mapAll_eq_some_mem {α β : Type} (f : α → Option β) :
    ∀ (l : List α) (r : List β), mapAll f l = some r →
      ∀ y ∈ r, ∃ x ∈ l, f x = some y
  | [], r, h, y, hy => by
    unfold mapAll at h
    cases h
    simp at hy
  | x :: l, r, h, y, hy => by
    unfold mapAll at h
    cases hfx : f x with
    | none => rw [hfx] at h; cases mapAll f l <;> simp_all
    | some z =>
      cases hml : mapAll f l with
      | none => rw [hfx, hml] at h; simp at h
      | some r' =>
        rw [hfx, hml] at h
        simp only [Option.some.injEq] at h
        subst h
        rcases List.mem_cons.mp hy with h | h
        · exact ⟨x, by simp, by rw [hfx, h]⟩
        · obtain ⟨x', hx', hfx'⟩ := mapAll_eq_some_mem f l r' hml y h
          exact ⟨x', by simp [hx'], hfx'⟩

theorem mapAll_eq_some_map {α β : Type} (f : α → Option β) (g : α → β) :
    ∀ (l : List α), (∀ x ∈ l, f x = some (g x)) → mapAll f l = some (l.map g)
  | [], _ => rfl
  | x :: l, h => by
    unfold mapAll
    rw [h x (by simp), mapAll_eq_some_map f g l (fun x' hx' => h x' (by simp [hx']))]
    rfl

theorem foldl_processSampleTracked_fst (vg : PhaseMeasurement → ℚ) :
    ∀ (samples : List Sample) (acc : List Sample × List (String × PhaseBucket)),
      (samples.foldl (processSampleTracked vg) acc).1 = acc.1 ++ samples
  | [], acc => by simp
  | s :: rest, acc => by
    rw [List.foldl_cons, foldl_processSampleTracked_fst vg rest]
    simp [processSampleTracked]

theorem formatPhaseData_isSignificant (cv ev : List ℚ) (p u : String) (s : ℤ) :
    (formatPhaseData cv ev p u s).isSignificant =
      ((confidenceIntervalData (cv.map (transformFor u)) (ev.map (transformFor u))).isSig
        && decide (1 ≤ |hlEstimator (cv.map (transformFor u)) (ev.map (transformFor u))|)) :=
  rfl

theorem formatPhaseData_ciMin (cv ev : List ℚ) (p u : String) (s : ℤ) :
    (formatPhaseData cv ev p u s).ciMin =
      (confidenceIntervalData (cv.map (transformFor u)) (ev.map (transformFor u))).min := rfl

theorem formatPhaseData_ciMax (cv ev : List ℚ) (p u : String) (s : ℤ) :
    (formatPhaseData cv ev p u s).ciMax =
      (confidenceIntervalData (cv.map (transformFor u)) (ev.map (transformFor u))).max := rfl

theorem formatPhaseData_hlDiff (cv ev : List ℚ) (p u : String) (s : ℤ) :
    (formatPhaseData cv ev p u s).hlDiff =
      hlEstimator (cv.map (transformFor u)) (ev.map (transformFor u)) := rfl

theorem confidenceIntervalData_isSig (c e : List ℚ) :
    (confidenceIntervalData c e).isSig =
      ((decide (0 < (confidenceIntervalData c e).min)
          || decide ((confidenceIntervalData c e).max < 0))
        && decide (2 ≤ c.length) && decide (2 ≤ e.length)) := rfl

/-- Claim C1, as stated, is false on the code: phase `"A"` occurs in the
control group once with unit `"ms"` and once with unit `"/100"`, yet the
engine raises no `PhaseMetadataMismatch` — it produces a full output
(`isSome`), and the bucket simply keeps the first-seen metadata with both
values appended. -/
theorem c1_counterexample :
    phaseOccurrences c1ControlSamples "A" =
      [⟨"A", 0, 5, 1, "ms"⟩, ⟨"A", 0, 7, 1, "/100"⟩] ∧
    ("ms" : String) ≠ "/100" ∧
    (generateStats (mkTrace c1ControlSamples "control")
        (mkTrace c1ExperimentSamples "experiment") reportTitlesX).isSome = true ∧
    alistGet "A" (bucketPhaseValues c1ControlSamples defaultValueGen) =
      some ⟨[5, 7], 1, "ms"⟩ :=
  ⟨by decide, by decide, by decide, by decide⟩

/-- Claim C1 (amended): on a sign/unit conflict the engine does not fail;
the bucket of a phase name records the `sign` and `unit` of the phase's
first occurrence, later conflicting metadata is ignored (never overwrites
the recorded values), and every occurrence's value is still appended in
order. -/
theorem c1_theorem (vg : PhaseMeasurement → ℚ) (samples : List Sample) (p : String)
    (m : PhaseMeasurement) (ms : List PhaseMeasurement)
    (hp : p ≠ "duration") (hocc : phaseOccurrences samples p = m :: ms) :
    alistGet p (bucketPhaseValues samples vg) =
      some ⟨(m :: ms).map vg, m.sign, m.unit⟩ :=
  bucketPhaseValues_spec vg samples p m ms hp hocc

/-- Witness for `c1_theorem` at the conflicting-metadata input: the bucket
of `"A"` keeps the first occurrence's `sign = 1`, `unit = "ms"`. -/
theorem c1_witness :
    ("A" : String) ≠ "duration" ∧
    phaseOccurrences c1ControlSamples "A" =
      [⟨"A", 0, 5, 1, "ms"⟩, ⟨"A", 0, 7, 1, "/100"⟩] ∧
    alistGet "A" (bucketPhaseValues c1ControlSamples defaultValueGen) =
      some ⟨[(⟨"A", 0, 5, 1, "ms"⟩ : PhaseMeasurement),
              ⟨"A", 0, 7, 1, "/100"⟩].map defaultValueGen, 1, "ms"⟩ :=
  ⟨by decide, by decide,
    c1_theorem defaultValueGen c1ControlSamples "A" ⟨"A", 0, 5, 1, "ms"⟩
      [⟨"A", 0, 7, 1, "/100"⟩] (by decide) (by decide)⟩

/-- Claim C3, as stated, is false on the code: at control `[5]`,
experiment `[9, 10]` (a `"/100"` phase, so the values are untransformed)
the confidence interval `[4, 5]` excludes 0 and the point estimate `4.5`
meets the threshold 1, yet the verdict is `false` — the conjunction of the
two stated conditions is not the whole formula. -/
theorem c3_counterexample :
    (formatPhaseData [5] [9, 10] "A" "/100" (-1)).isSignificant = false ∧
    (0 < (formatPhaseData [5] [9, 10] "A" "/100" (-1)).ciMin ∨
      (formatPhaseData [5] [9, 10] "A" "/100" (-1)).ciMax < 0) ∧
    1 ≤ |(formatPhaseData [5] [9, 10] "A" "/100" (-1)).hlDiff| := by
  have hu : ("/100" : String) ≠ "ms" := by decide
  have hmap5 : (([5] : List ℚ)).map (transformFor "/100") = [5] := by
    norm_num [transformFor, hu]
  have hmap910 : (([9, 10] : List ℚ)).map (transformFor "/100") = [9, 10] := by
    norm_num [transformFor, hu]
  have hdiffs : sortAsc (pairwiseDiffs [5] [9, 10]) = [4, 5] := by
    norm_num [pairwiseDiffs, sortAsc, insertAsc]
  have hest : hlEstimator [5] [9, 10] = 9 / 2 := by
    rw [hlEstimator, hdiffs]
    norm_num [quantileAt, ratFloor, ratCeil]
  have hns : isqrt 666666666666 = 816496 := by decide
  have ht : (666666666666 : ℤ).toNat = 666666666666 := by decide
  have hsqrt : ratSqrt (2 / 3) = 816496 / 1000000 := by
    rw [ratSqrt]
    norm_num [ratFloor, ht, hns]
  have hmin : (confidenceIntervalData [5] [9, 10]).min = 4 := by
    rw [confidenceIntervalData]
    norm_num [hdiffs, hsqrt, z975, jsRound, ratFloor]
  refine ⟨?_, Or.inl ?_, ?_⟩
  · rw [formatPhaseData_isSignificant, confidenceIntervalData_isSig]
    simp [List.length_map]
  · rw [formatPhaseData_ciMin, hmap5, hmap910, hmin]
    norm_num
  · rw [formatPhaseData_hlDiff, hmap5, hmap910, hest,
      abs_of_pos (by norm_num : (0 : ℚ) < 9 / 2)]
    norm_num

/-- Claim C3 (amended): the significance verdict equals the conjunction of
three conditions — the confidence interval excludes 0, the absolute point
estimate is at least 1 (a fixed threshold of one unit, not a configured
value), and both groups have at least 2 samples (insufficient data forces
non-significance). -/
theorem c3_theorem (cv ev : List ℚ) (p u : String) (s : ℤ) :
    (formatPhaseData cv ev p u s).isSignificant = true ↔
      ((0 < (formatPhaseData cv ev p u s).ciMin ∨
          (formatPhaseData cv ev p u s).ciMax < 0) ∧
        1 ≤ |(formatPhaseData cv ev p u s).hlDiff| ∧
        2 ≤ cv.length ∧ 2 ≤ ev.length) := by
  rw [formatPhaseData_isSignificant, formatPhaseData_ciMin, formatPhaseData_ciMax,
    formatPhaseData_hlDiff, confidenceIntervalData_isSig]
  simp only [List.length_map, Bool.and_eq_true, Bool.or_eq_true, decide_eq_true_eq]
  tauto

/-- Claim C4: a phase comparison whose control or experiment group has
fewer than 2 values still yields a result (the computation is total) and
that result's verdict is forced to `significant = false`, whatever the
numeric confidence interval. -/
theorem c4_theorem (cv ev : List ℚ) (p u : String) (s : ℤ)
    (h : cv.length < 2 ∨ ev.length < 2) :
    (formatPhaseData cv ev p u s).isSignificant = false := by
  rw [formatPhaseData_isSignificant, confidenceIntervalData_isSig]
  rcases h with h | h
  · simp [List.length_map, Nat.not_le.mpr h]
  · simp [List.length_map, Nat.not_le.mpr h]

/-- Witness for `c4_theorem` at the spec's own example, control `[5]`,
experiment `[9, 10]`. -/
theorem c4_witness :
    (([5] : List ℚ).length < 2 ∨ ([9, 10] : List ℚ).length < 2) ∧
    (formatPhaseData [5] [9, 10] "B" "/100" 1).isSignificant = false :=
  ⟨Or.inl (by decide), c4_theorem [5] [9, 10] "B" "/100" 1 (Or.inl (by decide))⟩

/-- `cumulativeValueFunc` in closed form: `"ms"` phases round the
microsecond sum divided by 1000; score phases multiply the duration alone
by 100. -/
theorem cumulativeValueFunc_eq (a : PhaseMeasurement) :
    cumulativeValueFunc a =
      if a.unit = "ms" then ((jsRound ((a.start + a.duration) / 1000) : ℤ) : ℚ)
      else a.duration * 100 := by
  unfold cumulativeValueFunc convertMicrosecondsToMS SCORE_TO_MS_FACTOR
  norm_num

/-- Claim C5, as stated, is false on the code: for the score-unit phase
with `start = 3`, `duration = 50` the chart value is `50 · 100 = 5000`,
not the claimed `(start + duration) · factor = 5300` — the score branch
ignores `start`. -/
theorem c5_counterexample :
    alistGet "A" (bucketPhaseValues [c5Sample] cumulativeValueFunc) =
      some ⟨[5000], -1, "/100"⟩ ∧
    ((3 : ℚ) + 50) * SCORE_TO_MS_FACTOR = 5300 ∧
    (5000 : ℚ) ≠ 5300 := by
  have hv : cumulativeValueFunc ⟨"A", 3, 50, -1, "/100"⟩ = 5000 := by
    norm_num [cumulativeValueFunc, SCORE_TO_MS_FACTOR,
      (by decide : ("/100" : String) ≠ "ms")]
  refine ⟨?_, by norm_num [SCORE_TO_MS_FACTOR], by norm_num⟩
  rw [bucketPhaseValues_spec cumulativeValueFunc [c5Sample] "A"
    ⟨"A", 3, 50, -1, "/100"⟩ [] (by decide) (by decide),
    List.map_cons, List.map_nil, hv]

/-- Claim C5 (amended): the per-(sample, phase) cumulative value is
`Math.round((start + duration)/1000)` for `"ms"` phases and
`duration · 100` for score-like phases — the scale factor (100 points ≙
10000 ms-equivalent) is applied to the duration alone, not to
`start + duration`. -/
theorem c5_theorem (samples : List Sample) (p : String) (m : PhaseMeasurement)
    (ms : List PhaseMeasurement) (hp : p ≠ "duration")
    (hocc : phaseOccurrences samples p = m :: ms) :
    (alistGet p (bucketPhaseValues samples cumulativeValueFunc)).map PhaseBucket.values =
      some ((m :: ms).map (fun a =>
        if a.unit = "ms" then ((jsRound ((a.start + a.duration) / 1000) : ℤ) : ℚ)
        else a.duration * 100)) := by
  rw [bucketPhaseValues_spec cumulativeValueFunc samples p m ms hp hocc,
    show cumulativeValueFunc = (fun a =>
      if a.unit = "ms" then ((jsRound ((a.start + a.duration) / 1000) : ℤ) : ℚ)
      else a.duration * 100) from funext cumulativeValueFunc_eq]
  rfl

/-- Witness for `c5_theorem` at the score-unit input with non-zero
`start`. -/
theorem c5_witness :
    ("A" : String) ≠ "duration" ∧
    phaseOccurrences [c5Sample] "A" = [⟨"A", 3, 50, -1, "/100"⟩] ∧
    (alistGet "A" (bucketPhaseValues [c5Sample] cumulativeValueFunc)).map
        PhaseBucket.values =
      some ([(⟨"A", 3, 50, -1, "/100"⟩ : PhaseMeasurement)].map (fun a =>
        if a.unit = "ms" then ((jsRound ((a.start + a.duration) / 1000) : ℤ) : ℚ)
        else a.duration * 100)) :=
  ⟨by decide, by decide,
    c5_theorem [c5Sample] "A" ⟨"A", 3, 50, -1, "/100"⟩ [] (by decide) (by decide)⟩

/-- Claim C7, as stated, is false on the code: the legacy cli
`bucketPhaseValues` sorts every bucket with the default (lexicographic)
`Array.sort`, so the durations arriving in sample order `[2000, 10000]`
are returned as `[10000, 2000]` (the string `"10000"` precedes `"2000"`). -/
theorem c7_counterexample :
    c7CliSamples.map (fun s => s.duration / NORMALIZE) = [2000, 10000] ∧
    alistGet "duration" (cliBucketPhaseValues c7CliSamples) = some [10000, 2000] ∧
    ([10000, 2000] : List ℚ) ≠ [2000, 10000] := by
  have h1 : (2000000 : ℚ) / 1000 = 2000 := by norm_num
  have h2 : (10000000 : ℚ) / 1000 = 10000 := by norm_num
  refine ⟨by norm_num [c7CliSamples, NORMALIZE], ?_, by decide⟩
  simp only [cliBucketPhaseValues, c7CliSamples, NORMALIZE, List.foldl_cons,
    List.foldl_nil]
  simp [alistGet, alistSet, h1, h2]
  decide

/-- Claim C7 (amended): the core engine's `bucketPhaseValues` does list
every bucket's values in insertion order — each non-`"duration"` bucket
carries its phase's measurement values in sample order and the
`"duration"` bucket the samples' durations in sample order — but the
legacy cli helper sorts its buckets (see the counterexample), so the claim
holds only for the core engine's bucketing. -/
theorem c7_theorem (vg : PhaseMeasurement → ℚ) (samples : List Sample) :
    (∀ (p : String) (m : PhaseMeasurement) (ms : List PhaseMeasurement),
      p ≠ "duration" → phaseOccurrences samples p = m :: ms →
      (alistGet p (bucketPhaseValues samples vg)).map PhaseBucket.values =
        some ((m :: ms).map vg)) ∧
    ((∀ s ∈ samples, ∀ q ∈ s.phases, q.phase ≠ "duration") →
      (alistGet "duration" (bucketPhaseValues samples vg)).map PhaseBucket.values =
        some (samples.map Sample.duration)) := by
  constructor
  · intro p m ms hp hocc
    rw [bucketPhaseValues_spec vg samples p m ms hp hocc]
    rfl
  · intro hnd
    rw [bucketPhaseValues_duration vg samples hnd]
    rfl

/-- Witness for `c7_theorem`: values 3, 4 of phase `"A"` and durations
10, 20 appear in sample order. -/
theorem c7_witness :
    ("A" : String) ≠ "duration" ∧
    phaseOccurrences c7Samples "A" = [⟨"A", 0, 3, 1, "ms"⟩, ⟨"A", 0, 4, 1, "ms"⟩] ∧
    (alistGet "A" (bucketPhaseValues c7Samples defaultValueGen)).map PhaseBucket.values =
      some ([(⟨"A", 0, 3, 1, "ms"⟩ : PhaseMeasurement),
              ⟨"A", 0, 4, 1, "ms"⟩].map defaultValueGen) ∧
    (∀ s ∈ c7Samples, ∀ q ∈ s.phases, q.phase ≠ "duration") ∧
    (alistGet "duration" (bucketPhaseValues c7Samples defaultValueGen)).map
        PhaseBucket.values = some (c7Samples.map Sample.duration) :=
  ⟨by decide, by decide,
    (c7_theorem defaultValueGen c7Samples).1 "A" ⟨"A", 0, 3, 1, "ms"⟩
      [⟨"A", 0, 4, 1, "ms"⟩] (by decide) (by decide),
    by decide,
    (c7_theorem defaultValueGen c7Samples).2 (by decide)⟩

/-- Claim C8: the comparison is a deterministic function of its inputs —
two runs on equal trace results and titles yield equal output.  The
embedding is a pure function: the source path performs no I/O and reads no
state outside its arguments. -/
theorem c8_theorem (cd ed : TraceResult) (rt : ParsedTitleConfigs)
    (cd' ed' : TraceResult) (rt' : ParsedTitleConfigs)
    (h1 : cd = cd') (h2 : ed = ed') (h3 : rt = rt') :
    generateStats cd ed rt = generateStats cd' ed' rt' := by
  subst h1
  subst h2
  subst h3
  rfl

/-- Witness for `c8_theorem` at a concrete pair of runs. -/
theorem c8_witness :
    mkTrace c1ControlSamples "control" = mkTrace c1ControlSamples "control" ∧
    mkTrace c1ExperimentSamples "experiment" = mkTrace c1ExperimentSamples "experiment" ∧
    reportTitlesX = reportTitlesX ∧
    generateStats (mkTrace c1ControlSamples "control")
        (mkTrace c1ExperimentSamples "experiment") reportTitlesX =
      generateStats (mkTrace c1ControlSamples "control")
        (mkTrace c1ExperimentSamples "experiment") reportTitlesX :=
  ⟨rfl, rfl, rfl,
    c8_theorem (mkTrace c1ControlSamples "control")
      (mkTrace c1ExperimentSamples "experiment") reportTitlesX
      (mkTrace c1ControlSamples "control")
      (mkTrace c1ExperimentSamples "experiment") reportTitlesX rfl rfl rfl⟩

/-- Claim C9: the engine leaves its input sample sequences unchanged.  The
translation threads the sample lists through every pass that reads them
(both bucketings of each group); the loop bodies of the source read sample
and measurement fields but never assign into them, so the threaded lists
come back equal to the inputs while the output is the unmodified
computation. -/
theorem c9_theorem (cd ed : TraceResult) (rt : ParsedTitleConfigs) :
    (generateStatsTracked cd ed rt).1 = (cd.samples, ed.samples) ∧
    (generateStatsTracked cd ed rt).2 = generateStats cd ed rt := by
  constructor
  · simp [generateStatsTracked, bucketPhaseValuesTracked, foldl_processSampleTracked_fst]
  · rfl

/-- Claim C10: the `sampleCount` of a comparison result is the number of
values in the control group's bucket, for every experiment group — the
experiment count never reaches that field even when it differs. -/
theorem c10_theorem (cv ev : List ℚ) (p u : String) (s : ℤ) :
    (formatPhaseData cv ev p u s).sampleCount = cv.length := by
  show (makeStats cv ev p (transformFor u)).sampleCountControl = cv.length
  simp [makeStats]

/-- Claim C2, as stated, is false on the code: phase `"A"` appears only in
the control group, and instead of treating the experiment side as an empty
bucket and producing a `ComparisonResult`, the engine fails — the
comparison produces nothing at all (the `undefined.values` access). -/
theorem c2_counterexample :
    phaseOccurrences c2ControlSamples "A" = [⟨"A", 0, 5, 1, "ms"⟩] ∧
    phaseOccurrences c2ExperimentSamples "A" = [] ∧
    generateStats (mkTrace c2ControlSamples "control")
      (mkTrace c2ExperimentSamples "experiment") reportTitlesX = none :=
  ⟨by decide, by decide, by decide⟩

/-- Claim C2 (amended): a phase present only in the control group makes
the whole comparison fail (the experiment bucket lookup yields nothing and
its `.values` access aborts the run), rather than being compared against
an empty bucket; a phase present only in the experiment group raises no
error but is silently dropped — every produced sub-phase section belongs
to a control sub-phase. -/
theorem c2_theorem (controlData experimentData : TraceResult)
    (rt : ParsedTitleConfigs) :
    ((∃ p ∈ subPhaseNames controlData.samples defaultValueGen,
        alistGet p (bucketPhaseValues experimentData.samples defaultValueGen) = none) →
      generateStats controlData experimentData rt = none) ∧
    (∀ o, generateStats controlData experimentData rt = some o →
      ∀ sec ∈ o.subPhaseSections,
        sec.phase ∈ subPhaseNames controlData.samples defaultValueGen) := by
  constructor
  · rintro ⟨p, hp, hnone⟩
    have hsec : sectionFor (bucketPhaseValues controlData.samples defaultValueGen)
        (bucketPhaseValues experimentData.samples defaultValueGen) rt p = none := by
      unfold sectionFor
      rw [hnone]
      rfl
    have hmap : mapAll (sectionFor (bucketPhaseValues controlData.samples defaultValueGen)
        (bucketPhaseValues experimentData.samples defaultValueGen) rt)
        (subPhaseNames controlData.samples defaultValueGen) = none :=
      mapAll_eq_none _ _ ⟨p, hp, hsec⟩
    unfold generateStats generateData
    simp only [hmap]
  · intro o ho sec hsec
    unfold generateStats at ho
    cases hgd : generateData controlData.samples experimentData.samples rt with
    | none =>
      rw [hgd] at ho
      exact absurd ho (by simp)
    | some pr =>
      obtain ⟨dur, sections⟩ := pr
      rw [hgd] at ho
      cases hbc : bucketCumulative controlData.samples experimentData.samples with
      | none =>
        rw [hbc] at ho
        exact absurd ho (by simp)
      | some charts =>
        rw [hbc] at ho
        simp only [Option.some.injEq] at ho
        have hsections : o.subPhaseSections = sections := by
          rw [← ho]
        rw [hsections] at hsec
        unfold generateData at hgd
        cases hm : mapAll (sectionFor (bucketPhaseValues controlData.samples defaultValueGen)
            (bucketPhaseValues experimentData.samples defaultValueGen) rt)
            (subPhaseNames controlData.samples defaultValueGen) with
        | none =>
          simp only [hm] at hgd
          exact absurd hgd (by simp)
        | some secs =>
          simp only [hm, Option.some.injEq, Prod.mk.injEq] at hgd
          obtain ⟨p, hp, hfp⟩ := mapAll_eq_some_mem _ _ _ hm sec (hgd.2 ▸ hsec)
          have hphase : sec.phase = p := by
            unfold sectionFor at hfp
            cases hev : alistGet p (bucketPhaseValues experimentData.samples defaultValueGen) with
            | none =>
              rw [hev] at hfp
              exact absurd hfp (by simp)
            | some ev =>
              rw [hev] at hfp
              simp only [Option.map_some', Option.some.injEq] at hfp
              rw [← hfp]
              rfl
          rw [hphase]
          exact hp

/-- Witness for `c2_theorem` at the control-only-phase input: the engine
yields nothing. -/
theorem c2_witness :
    (∃ p ∈ subPhaseNames c2ControlSamples defaultValueGen,
      alistGet p (bucketPhaseValues c2ExperimentSamples defaultValueGen) = none) ∧
    generateStats (mkTrace c2ControlSamples "control")
      (mkTrace c2ExperimentSamples "experiment") reportTitlesX = none :=
  ⟨by decide,
    (c2_theorem (mkTrace c2ControlSamples "control")
      (mkTrace c2ExperimentSamples "experiment") reportTitlesX).1 (by decide)⟩

/-- Claim C6, as stated, is false on the code: the experiment-only phase
`"B"` carries unit `"/100"`, yet the cumulative output has entries only
for `"ms"` — the units and phases of the charts are collected from the
control group's buckets alone, so a unit occurring only in the experiment
group gets no entry. -/
theorem c6_counterexample :
    (bucketCumulative c6ControlSamples c6ExperimentSamples).map
        (fun charts => charts.map (fun ch => ch.unit)) = some ["ms"] ∧
    (alistGet "B" (bucketPhaseValues c6ExperimentSamples cumulativeValueFuncA)).map
        PhaseBucket.unit = some "/100" ∧
    ("/100" : String) ∉ ["ms"] :=
  ⟨by decide, by decide, by decide⟩

/-- Claim C6 (amended): when every control sub-phase also has an
experiment bucket, the cumulative output has exactly one entry per
distinct unit occurring among the control group's sub-phase buckets (in
first-occurrence order), and each entry lists exactly the control
sub-phases whose control bucket carries that unit; phases present only in
the experiment group contribute no entry. -/
theorem c6_theorem (c e : List Sample)
    (H : ∀ p ∈ subPhaseNames c cumulativeValueFuncA,
      (alistGet p (bucketPhaseValues e cumulativeValueFuncA)).isSome = true) :
    bucketCumulative c e =
      some ((dedupFirst ((subPhaseNames c cumulativeValueFuncA).map
        (fun p => (bucketAt c cumulativeValueFuncA p).unit))).map (chartForUnit c e)) ∧
    ∀ charts, bucketCumulative c e = some charts →
      (charts.map (fun ch => ch.unit) =
        dedupFirst ((subPhaseNames c cumulativeValueFuncA).map
          (fun p => (bucketAt c cumulativeValueFuncA p).unit)) ∧
      ∀ ch ∈ charts, ch.categories.map (fun cat => cat.headD "") =
        (subPhaseNames c cumulativeValueFuncA).filter
          (fun p => decide ((bucketAt c cumulativeValueFuncA p).unit = ch.unit))) := by
  have h1 : bucketCumulative c e =
      some ((dedupFirst ((subPhaseNames c cumulativeValueFuncA).map
        (fun p => (bucketAt c cumulativeValueFuncA p).unit))).map (chartForUnit c e)) := by
    unfold bucketCumulative
    apply mapAll_eq_some_map
    intro u _
    have hinner : mapAll
        (fun k => (alistGet k (bucketPhaseValues e cumulativeValueFuncA)).map
          (fun b => b.values))
        ((subPhaseNames c cumulativeValueFuncA).filter
          (fun p => decide ((bucketAt c cumulativeValueFuncA p).unit = u))) =
        some (((subPhaseNames c cumulativeValueFuncA).filter
          (fun p => decide ((bucketAt c cumulativeValueFuncA p).unit = u))).map
          (fun k => (bucketAt e cumulativeValueFuncA k).values)) := by
      apply mapAll_eq_some_map
      intro k hk
      have hkp : k ∈ subPhaseNames c cumulativeValueFuncA := (List.mem_filter.mp hk).1
      cases hb : alistGet k (bucketPhaseValues e cumulativeValueFuncA) with
      | none =>
        have := H k hkp
        rw [hb] at this
        exact absurd this (by simp)
      | some b =>
        simp [bucketAt, hb]
    simp only [hinner, Option.map_some']
    rfl
  refine ⟨h1, ?_⟩
  intro charts hcharts
  rw [h1] at hcharts
  simp only [Option.some.injEq] at hcharts
  subst hcharts
  constructor
  · rw [List.map_map]
    have hcomp : ((fun ch => CumulativeChartData.unit ch) ∘ chartForUnit c e) =
        fun u => u := by
      funext u
      rfl
    rw [hcomp]
    simp
  · intro ch hch
    obtain ⟨u, _, hu⟩ := List.mem_map.mp hch
    rw [← hu]
    have hunit : (chartForUnit c e u).unit = u := rfl
    rw [hunit]
    show (((subPhaseNames c cumulativeValueFuncA).filter
        (fun p => decide ((bucketAt c cumulativeValueFuncA p).unit = u))).map
          (fun k => [k, if 0 < (bucketAt c cumulativeValueFuncA k).sign
            then "lower=better" else "higher=better"])).map (fun cat => cat.headD "") = _
    rw [List.map_map]
    have hcomp : ((fun cat => List.headD cat "") ∘ (fun k =>
        [k, if 0 < (bucketAt c cumulativeValueFuncA k).sign
            then "lower=better" else "higher=better"])) = fun k => k := by
      funext k
      rfl
    rw [hcomp]
    simp

/-- Witness for `c6_theorem`: at the concrete input every control
sub-phase has an experiment bucket, and the grouped chart list equals the
explicit per-unit construction. -/
theorem c6_witness :
    (∀ p ∈ subPhaseNames c6ControlSamples cumulativeValueFuncA,
      (alistGet p (bucketPhaseValues c6ExperimentSamples cumulativeValueFuncA)).isSome
        = true) ∧
    bucketCumulative c6ControlSamples c6ExperimentSamples =
      some ((dedupFirst ((subPhaseNames c6ControlSamples cumulativeValueFuncA).map
        (fun p => (bucketAt c6ControlSamples cumulativeValueFuncA p).unit))).map
        (chartForUnit c6ControlSamples c6ExperimentSamples)) :=
  ⟨by decide, (c6_theorem c6ControlSamples c6ExperimentSamples (by decide)).1⟩
